import Mathlib

/-!
Verification of the AI-Interviewer backend (`server/app.py` and collaborators).

The Python source is shallowly embedded: pure fragments become Lean
functions over `String`, `List`, `Nat`, `Int` and `ℚ`; the module-level
mutable cache and the JSON-file session store become explicit state that
every operation threads; cloud calls (Amazon Bedrock) become oracle
parameters describing the outcome of the call; operations that can raise
an HTTP error return `Except`.

Conventions used throughout:
* Python `str.split()` (split on whitespace runs) is `pySplit`.
* Python `str.lower()` is `lowerStr` (ASCII case folding, which is all the
  source's keyword lists need).
* Python `pat in s` substring containment is `strContains s pat`.
* Python float comparisons of the form `count > n * 0.1` and
  `count / n > 0.5` are modelled by the exact integer comparisons
  `10 * count > n` and `2 * count > n`; for the word counts involved the
  float and exact comparisons agree.
* The md5-based cache fingerprint `f"{question_id}_{md5(answer)[:12]}"` is
  modelled as the pair `(question_id, normalized answer)`; md5 truncation
  collisions are out of scope of the shallow embedding.
-/

/-! ## String primitives (Python `str` semantics) -/

/-- Boolean prefix test on character lists. -/
def charsPrefix : List Char → List Char → Bool
  | [], _ => true
  | _ :: _, [] => false
  | a :: as, b :: bs => a == b && charsPrefix as bs

/-- Boolean substring test on character lists: does `pat` occur inside `hay`? -/
def charsContains (hay pat : List Char) : Bool :=
  match hay with
  | [] => pat.isEmpty
  | _ :: rest => charsPrefix pat hay || charsContains rest pat

/-- Python `pat in s` (substring containment). -/
def strContains (s pat : String) : Bool :=
  charsContains s.data pat.data

/-- Helper for `pySplit`: walks the characters, accumulating the current word. -/
def splitWsAux : List Char → List Char → List (List Char)
  | [], acc => if acc.isEmpty then [] else [acc.reverse]
  | c :: rest, acc =>
      if c.isWhitespace then
        if acc.isEmpty then splitWsAux rest [] else acc.reverse :: splitWsAux rest []
      else splitWsAux rest (c :: acc)

/-- Python `str.split()` with no argument: split on runs of whitespace,
discarding empty tokens. -/
def pySplit (s : String) : List String :=
  (splitWsAux s.data []).map String.mk

/-- Python `str.lower()`. -/
def lowerStr (s : String) : String :=
  String.mk (s.data.map Char.toLower)

/-- Python `str.strip()` with no argument: drop leading and trailing whitespace. -/
def pyStrip (s : String) : String :=
  String.mk (((s.data.dropWhile Char.isWhitespace).reverse.dropWhile Char.isWhitespace).reverse)

/-- Python `str.strip('.,!?')` as used on question/answer tokens. -/
def stripPunct (s : String) : String :=
  let p : Char → Bool := fun c => c == '.' || c == ',' || c == '!' || c == '?'
  String.mk (((s.data.dropWhile p).reverse.dropWhile p).reverse)

/-- Arithmetic mean of a list of rationals (`sum / len`; `0` for `[]`,
matching the guarded divisions in the source). -/
def listMean (l : List ℚ) : ℚ :=
  l.sum / l.length

/-! ## Analysis results (`app.py` analyze-answer path) -/

/-- The Analysis JSON produced by `/analyze-answer`: a score plus short
strength/improvement lists.  Scores on this path are integers in the
source (`2`, `6`, the clamped Bedrock score, the fallback score). -/
structure Analysis where
  score : Int
  strengths : List String
  improvements : List String
  deriving Repr, DecidableEq

/-- The canned analysis for answers shorter than 5 characters
(`app.py` lines 553-558). -/
def short_answer_analysis : Analysis :=
  { score := 2
    strengths := ["Attempted to answer"]
    improvements := ["Provide more detailed response", "Elaborate on your thoughts"] }

/-- The emergency fallback returned by the outer `except` of
`analyze_interview_answer` (`app.py` lines 592-599). -/
def emergency_analysis : Analysis :=
  { score := 6
    strengths := ["Provided response"]
    improvements := ["Keep practicing"] }

/-- Hedging phrases counted by `simple_fallback_analysis`
(`uncertainty_phrases`, `app.py` line 681). -/
def uncertainty_phrases : List String :=
  ["not sure", "i think", "maybe", "probably", "i guess"]

/-- Filler words counted by `simple_fallback_analysis`
(`filler_words`, `app.py` line 682).  Note the source compares whole
whitespace-separated tokens against this list, so the two-word entry
"you know" can never match a single token. -/
def filler_words : List String :=
  ["um", "uh", "like", "you know"]

/-- Number of hedging phrases from `uncertainty_phrases` occurring in the
lowercased answer (`sum(1 for phrase in uncertainty_phrases if phrase in
answer_lower)`: each listed phrase contributes at most once). -/
def sfa_uncertainty_count (answer_lower : String) : Nat :=
  (uncertainty_phrases.filter (fun p => strContains answer_lower p)).length

/-- Number of word tokens whose lowercase form is in `filler_words`
(`sum(1 for word in words if word.lower() in filler_words)`). -/
def sfa_filler_count (words : List String) : Nat :=
  (words.filter (fun w => filler_words.contains (lowerStr w))).length

/-- `simple_fallback_analysis` (`app.py` lines 674-725): local heuristic
scoring used when the Bedrock call fails.  The float comparison
`filler_count > word_count * 0.1` is modelled as
`10 * filler_count > word_count`. -/
def simple_fallback_analysis (answer_text : String) : Analysis :=
  let words := pySplit answer_text
  let word_count := words.length
  let answer_lower := lowerStr answer_text
  let uncertainty_count := sfa_uncertainty_count answer_lower
  let filler_count := sfa_filler_count words
  let score0 : Int := 7
  let score1 : Int :=
    if word_count < 10 then score0 - 2
    else if word_count > 40 then score0 + 1
    else score0
  let score2 : Int := if uncertainty_count > 2 then score1 - 1 else score1
  let score3 : Int := if 10 * filler_count > word_count then score2 - 1 else score2
  let score : Int := max 3 (min 10 score3)
  let strengths0 : List String :=
    (if word_count ≥ 25 then ["Provided comprehensive response"] else []) ++
    (if uncertainty_count ≤ 1 then ["Confident delivery"] else []) ++
    (if ["experience", "project", "team", "result"].any (fun w => strContains answer_lower w)
      then ["Relevant examples mentioned"] else [])
  let improvements0 : List String :=
    (if word_count < 20 then ["Add more specific details"] else []) ++
    (if uncertainty_count > 1 then ["Show more confidence"] else []) ++
    (if filler_count > 3 then ["Reduce hesitation words"] else [])
  let strengths := if strengths0.isEmpty then ["Engaged with the question"] else strengths0
  let improvements := if improvements0.isEmpty then ["Keep practicing"] else improvements0
  { score := score
    strengths := strengths.take 3
    improvements := improvements.take 3 }

/-! ## Bedrock oracle and `/analyze-answer` (`app.py` lines 525-672) -/

/-- Outcome of a Bedrock invocation after JSON extraction, for the cases
where a well-formed object with the three required fields was found in the
model output.  Every other outcome (Bedrock unavailable, timeout, parse
failure, missing field) is represented by passing `none` to
`analyze_with_bedrock`. -/
structure BedrockParsed where
  score : Int
  strengths : List String
  improvements : List String
  deriving Repr, DecidableEq

/-- `analyze_with_bedrock` (`app.py` lines 601-672), as a function of the
call's outcome: on a well-formed response the score is clamped into
`[0,10]` and each feedback list truncated to 3 items; every failure mode
raises (here `Except.error`). -/
def analyze_with_bedrock (outcome : Option BedrockParsed) : Except Unit Analysis :=
  match outcome with
  | some a =>
      .ok { score := min 10 (max 0 a.score)
            strengths := a.strengths.take 3
            improvements := a.improvements.take 3 }
  | none => .error ()

/-- Request body of `/analyze-answer` (`AnswerRequest`, `app.py` lines 29-32). -/
structure AnswerRequest where
  session_id : String
  question_id : Nat
  answer : String
  deriving Repr, DecidableEq

/-- Cache fingerprint: question id paired with the normalized
(lowercased, stripped) answer text; the source hashes the latter with md5
and keeps 12 hex digits, modelled here by the normalized text itself. -/
abbrev CacheKey := Nat × String

/-- The process-wide `analysis_cache` dict, as an association list in
insertion order (oldest entry first; Python dicts preserve insertion
order and `next(iter(d))` is the oldest key). -/
abbrev AnalysisCache := List (CacheKey × Analysis)

/-- `MAX_CACHE_SIZE` (`app.py` line 63). -/
def MAX_CACHE_SIZE : Nat := 100

/-- Cache key of a request (`app.py` lines 535-536). -/
def analysisCacheKey (req : AnswerRequest) : CacheKey :=
  (req.question_id, pyStrip (lowerStr req.answer))

/-- Dict membership / lookup on the cache. -/
def lookupCache (cache : AnalysisCache) (k : CacheKey) : Option Analysis :=
  (cache.find? (fun p => p.1 == k)).map Prod.snd

/-- The bounded insert of `app.py` lines 569-575: when the size cap is
reached the oldest-inserted entry is dropped, then the new entry is
appended (inserts only happen on cache miss, so the key is fresh). -/
def cacheBoundedInsert (cache : AnalysisCache) (k : CacheKey) (v : Analysis) : AnalysisCache :=
  let cache' := if cache.length ≥ MAX_CACHE_SIZE then cache.drop 1 else cache
  cache' ++ [(k, v)]

/-- One persisted analysis record (`analysis_data`, `app.py` lines 578-583;
the wall-clock `processing_time` field is not modelled). -/
structure AnalysisRecord where
  question_id : Nat
  answer : String
  analysis : Analysis
  deriving Repr, DecidableEq

/-- The session store restricted to the `analysis_{question_id}` kind:
`save_extracted_data(session_id, f"analysis_{qid}", ...)` keyed by
`(session_id, question_id)`.  Lookup takes the first (most recent) entry;
insert prepends, which models overwriting the JSON file for that key. -/
abbrev AnalysisStore := List ((String × Nat) × AnalysisRecord)

/-- Store lookup (`load_extracted_data` for an `analysis_{qid}` kind;
`none` models the empty-dict result for a missing record). -/
def lookupAnalysisRecord (store : AnalysisStore) (k : String × Nat) : Option AnalysisRecord :=
  (store.find? (fun p => p.1 == k)).map Prod.snd

/-- Store save (`save_extracted_data` overwrite semantics). -/
def saveAnalysisRecord (store : AnalysisStore) (k : String × Nat) (v : AnalysisRecord) :
    AnalysisStore :=
  (k, v) :: store

/-- Result of one `/analyze-answer` call: the returned analysis together
with the updated cache and store, plus an instrumentation flag recording
whether the cloud path (`analyze_with_bedrock`) was attempted. -/
structure AnalyzeResult where
  analysis : Analysis
  cache : AnalysisCache
  store : AnalysisStore
  cloudInvoked : Bool
  deriving Repr, DecidableEq

/-- `analyze_interview_answer` (`app.py` lines 525-599).

Oracles: `bedrock` is the outcome of the (single) Bedrock invocation;
`loadQ` is the outcome of loading the stored question list — `.error`
models the only uncaught exception source in the body (malformed stored
question data raising while the question context is extracted), which the
outer `except` turns into the emergency analysis without touching cache or
store.  The question text extracted from `loadQ`'s payload only feeds the
Bedrock prompt, which the `bedrock` oracle already abstracts.

`analyze_fresh` is the cache-miss scoring block (`app.py` lines 552-567):
the short-answer short-circuit, then the Bedrock attempt with fallback to
`simple_fallback_analysis`; the second component records whether the
cloud path was attempted. -/
def analyze_fresh (bedrock : Option BedrockParsed) (answer : String) : Analysis × Bool :=
  if (pyStrip answer).length < 5 then (short_answer_analysis, false)
  else
    match analyze_with_bedrock bedrock with
    | .ok a => (a, true)
    | .error _ => (simple_fallback_analysis answer, true)

/-- The full `/analyze-answer` request handler
(`analyze_interview_answer`, `app.py` lines 525-599). -/
def analyze_interview_answer (bedrock : Option BedrockParsed)
    (loadQ : Except Unit Unit) (cache : AnalysisCache) (store : AnalysisStore)
    (req : AnswerRequest) : AnalyzeResult :=
  let cache_key := analysisCacheKey req
  match lookupCache cache cache_key with
  | some cached => { analysis := cached, cache := cache, store := store, cloudInvoked := false }
  | none =>
    match loadQ with
    | .error _ =>
        { analysis := emergency_analysis, cache := cache, store := store, cloudInvoked := false }
    | .ok _ =>
      let fresh := analyze_fresh bedrock req.answer
      let cache' := cacheBoundedInsert cache cache_key fresh.1
      let store' := saveAnalysisRecord store (req.session_id, req.question_id)
        { question_id := req.question_id, answer := req.answer, analysis := fresh.1 }
      { analysis := fresh.1, cache := cache', store := store', cloudInvoked := fresh.2 }

/-- A sequence of `/analyze-answer` calls, each with its own oracle
outcomes, threaded through the shared cache and store. -/
def runAnalyze (steps : List (Option BedrockParsed × Except Unit Unit × AnswerRequest))
    (cache : AnalysisCache) (store : AnalysisStore) : AnalysisCache × AnalysisStore :=
  match steps with
  | [] => (cache, store)
  | (b, lq, req) :: rest =>
      let r := analyze_interview_answer b lq cache store req
      runAnalyze rest r.cache r.store

/-! ## Questions and `/generate-questions` (`app.py` lines 277-364) -/

/-- An interview question.  `qtype` is the dict's `type` field.  Fields
absent from a given source dict (`is_scored` for the speech-interview
questions and provider output, `difficulty` for the generate-questions
set) are `Option`s; the lazily-populated audio payload fields do not
affect any modelled logic and are omitted. -/
structure Question where
  id : Nat
  question : String
  qtype : String
  is_scored : Option Bool := none
  difficulty : Option String := none
  deriving Repr, DecidableEq

/-- The canned introduction question inserted by `/generate-questions`
(`app.py` line 308). -/
def intro_question : Question :=
  { id := 1
    question := "Hello! Welcome to the AI interview. I\x27m excited to get to know you better today. Could you please introduce yourself and tell me a bit about your background?"
    qtype := "introduction"
    is_scored := some false }

/-- `get_fallback_questions` (`app.py` lines 355-364). -/
def get_fallback_questions : List Question :=
  [ intro_question,
    { id := 2
      question := "That\x27s great! Now, I\x27d love to hear about a project you\x27ve worked on that you\x27re particularly proud of. Could you walk me through it?"
      qtype := "technical", is_scored := some true },
    { id := 3
      question := "Interesting! Everyone faces challenges in their work. How do you typically approach difficult situations or tight deadlines?"
      qtype := "behavioral", is_scored := some true },
    { id := 4
      question := "Good to know! Teamwork is so important. Can you tell me about your experience working with others and how you collaborate in a team setting?"
      qtype := "behavioral", is_scored := some true },
    { id := 5
      question := "Excellent! Let\x27s talk about problem-solving. Can you describe a challenging technical problem you\x27ve solved and walk me through your approach?"
      qtype := "technical", is_scored := some true },
    { id := 6
      question := "That\x27s impressive! Learning is a big part of growth. Tell me about a time when you had to learn something new quickly. How did you approach it?"
      qtype := "behavioral", is_scored := some true } ]

/-- Reassign ids `n, n+1, ...` along a list, the loop
`for i, q in enumerate(questions): q['id'] = i + 2` instantiated at a
starting index. -/
def renumberFrom (n : Nat) : List Question → List Question
  | [] => []
  | q :: qs => { q with id := n } :: renumberFrom (n + 1) qs

/-- The question-list fixup of `/generate-questions` (`app.py` lines
295-315).  `provider` is the outcome of
`ai_question_generator.generate_questions`: `none` when the call raised
(the `except` branch substitutes `get_fallback_questions()`), otherwise
the returned list.  A provider dict with no `type` key is modelled by a
`qtype` that is not `"introduction"`.  The audio bookkeeping fields set
afterwards (lines 317-321) are omitted. -/
def generate_questions_core (provider : Option (List Question)) : List Question :=
  let questions := provider.getD get_fallback_questions
  if questions.isEmpty || (questions.head?.map (fun q => q.qtype)) ≠ some "introduction" then
    if questions.isEmpty then
      intro_question :: get_fallback_questions.drop 1
    else
      intro_question :: renumberFrom 2 questions
  else
    questions

/-! ## Speech interview session machine (`app.py` lines 994-1163) -/

/-- The fixed question list installed by `/speech-interview/start`
(`app.py` lines 1022-1028); the AI path is stubbed out in the source
(`questions = []` followed by the fallback). -/
def speech_fallback_questions : List Question :=
  [ { id := 1, question := "Tell me about yourself and your technical background."
      qtype := "technical", difficulty := some "baseline" },
    { id := 2, question := "Describe a challenging project you worked on recently."
      qtype := "behavioral", difficulty := some "baseline" },
    { id := 3, question := "How do you handle working under pressure?"
      qtype := "situational", difficulty := some "baseline" },
    { id := 4, question := "What interests you most about this role?"
      qtype := "custom", difficulty := some "baseline" } ]

/-- The placeholder per-turn analysis of `/speech-interview/analyze`
(`app.py` lines 1095-1103). -/
structure SpeechAnalysis where
  overall_score : ℚ
  technical_accuracy : ℚ
  communication_skills : ℚ
  confidence_level : String
  job_relevance : ℚ
  strengths : List String
  improvements : List String
  deriving Repr, DecidableEq

/-- The constant analysis dict of `app.py` lines 1095-1103. -/
def placeholder_analysis : SpeechAnalysis :=
  { overall_score := 7
    technical_accuracy := 7
    communication_skills := 8
    confidence_level := "moderate"
    job_relevance := 7
    strengths := ["Clear communication"]
    improvements := ["More technical details"] }

/-- One entry of `question_history` (`question_record`, `app.py` lines
1106-1112). -/
structure TurnRecord where
  question_id : Nat
  question : String
  answer : String
  response_time : ℚ
  analysis : SpeechAnalysis
  deriving Repr, DecidableEq

/-- `session_stats` of the speech session file. -/
structure SessionStats where
  total_questions : Nat
  completed : Nat
  average_score : ℚ
  deriving Repr, DecidableEq

/-- The per-session JSON blob `speech_session_{id}.json`
(`session_data`, `app.py` lines 1037-1047). -/
structure SpeechSession where
  questions : List Question
  current_question_index : Nat
  difficulty_level : String
  question_history : List TurnRecord
  session_stats : SessionStats
  deriving Repr, DecidableEq

/-- `/speech-interview/start` (`app.py` lines 994-1064), as a function of
the resume text loaded from disk: empty resume text is rejected with a 400;
otherwise the fixed question list is installed with index 0, empty history
and zeroed statistics.  (The returned HTTP payload mirrors these fields and
is not separately modelled.) -/
def start_speech_interview (resume_text : String) (difficulty_level : String) :
    Except String SpeechSession :=
  if resume_text = "" then .error "No resume data found"
  else
    .ok { questions := speech_fallback_questions
          current_question_index := 0
          difficulty_level := difficulty_level
          question_history := []
          session_stats :=
            { total_questions := speech_fallback_questions.length
              completed := 0
              average_score := 0 } }

/-- The collection of `speech_session_{session_id}.json` files, keyed by
session id. -/
abbrev SessionStore := List (String × SpeechSession)

/-- Does `speech_session_{id}.json` exist, and with which contents? -/
def lookupSession (store : SessionStore) (sid : String) : Option SpeechSession :=
  (store.find? (fun p => p.1 == sid)).map Prod.snd

/-- Overwrite `speech_session_{id}.json`. -/
def saveSession (store : SessionStore) (sid : String) (sd : SpeechSession) : SessionStore :=
  (sid, sd) :: store

/-- Request body of `/speech-interview/analyze` (`SpeechAnswerRequest`,
`app.py` lines 38-42). -/
structure SpeechAnswerRequest where
  session_id : String
  question_id : Nat
  answer : String
  response_time : ℚ := 0
  deriving Repr, DecidableEq

/-- Response body of `/speech-interview/analyze` (`app.py` lines
1145-1159), restricted to the fields the specification talks about. -/
structure SpeechResponse where
  analysis : SpeechAnalysis
  next_question : Option Question
  is_complete : Bool
  progress_completed : Nat
  progress_total : Nat
  progress_average : ℚ
  performance_trend : String
  deriving Repr, DecidableEq

/-- `"improving" if len(scores) > 1 and scores[-1] > scores[-2] else
"stable"` (`app.py` line 1157). -/
def trendImproving (scores : List ℚ) : Bool :=
  match scores.reverse with
  | a :: b :: _ => decide (b < a)
  | _ => false

/-!
The `/speech-interview/analyze` endpoint (`app.py` lines 1066-1163).

Branches, in source order: missing session file → 400; `questions[current_index]`
out of range → IndexError → 500 (nothing persisted); submitted `question_id`
different from the current question's id → 400 "Question ID mismatch"
(nothing persisted); a next question exists → the source calls the unbound
module-level name `text_to_speech`, raising `NameError` before the session
file is written, so the turn is **not** persisted and a 500 is returned;
otherwise (answer to the final question) the turn is appended, statistics
are recomputed, the session transitions to complete and is saved.  The
per-turn `speech_analysis_{sid}_{qid}.json` file is likewise written only
on that success path and is not separately modelled. -/
/-- The `question_record` appended to the history
(`app.py` lines 1106-1112). -/
def speech_turn_record (req : SpeechAnswerRequest) (current_question : Question) : TurnRecord :=
  { question_id := req.question_id
    question := current_question.question
    answer := req.answer
    response_time := req.response_time
    analysis := placeholder_analysis }

/-- The updated history (`app.py` line 1114). -/
def speech_new_history (sd : SpeechSession) (req : SpeechAnswerRequest)
    (current_question : Question) : List TurnRecord :=
  sd.question_history ++ [speech_turn_record req current_question]

/-- The recomputed score list (`app.py` line 1118). -/
def speech_new_scores (sd : SpeechSession) (req : SpeechAnswerRequest)
    (current_question : Question) : List ℚ :=
  (speech_new_history sd req current_question).map (fun q => q.analysis.overall_score)

/-- The recomputed running average (`app.py` line 1119). -/
def speech_new_average (sd : SpeechSession) (req : SpeechAnswerRequest)
    (current_question : Question) : ℚ :=
  let scores := speech_new_scores sd req current_question
  scores.sum / (scores.length : ℚ)

/-- The session blob written back on the success path
(`app.py` lines 1114-1119 and 1137-1138). -/
def speech_submit_update (sd : SpeechSession) (req : SpeechAnswerRequest)
    (current_question : Question) : SpeechSession :=
  { sd with
    question_history := speech_new_history sd req current_question
    session_stats :=
      { total_questions := sd.session_stats.total_questions
        completed := sd.session_stats.completed + 1
        average_score := speech_new_average sd req current_question } }

/-- The response body of the success path (`app.py` lines 1145-1159). -/
def speech_submit_response (sd : SpeechSession) (req : SpeechAnswerRequest)
    (current_question : Question) : SpeechResponse :=
  { analysis := placeholder_analysis
    next_question := none
    is_complete := true
    progress_completed := sd.session_stats.completed + 1
    progress_total := sd.session_stats.total_questions
    progress_average := speech_new_average sd req current_question
    performance_trend :=
      if trendImproving (speech_new_scores sd req current_question)
      then "improving" else "stable" }

/-- The endpoint body, dispatching over the branches described above. -/
def analyze_speech_answer (store : SessionStore) (req : SpeechAnswerRequest) :
    Except String SpeechResponse × SessionStore :=
  match lookupSession store req.session_id with
  | none => (.error "No speech session found", store)
  | some sd =>
    match sd.questions[sd.current_question_index]? with
    | none => (.error "list index out of range", store)
    | some current_question =>
      if req.question_id ≠ current_question.id then
        (.error "Question ID mismatch", store)
      else
        if sd.current_question_index + 1 < sd.questions.length then
          (.error "name \x27text_to_speech\x27 is not defined", store)
        else
          (.ok (speech_submit_response sd req current_question),
           saveSession store req.session_id (speech_submit_update sd req current_question))

/-! ## `/interview-summary` (`app.py` lines 954-992) -/

/-- The summary payload (`app.py` lines 974-986), restricted to the
aggregate fields (the echoed raw `questions`/`analyses` lists are the
inputs themselves). -/
structure InterviewSummary where
  total_questions : Nat
  answered_questions : Nat
  technical_count : Nat
  behavioral_count : Nat
  general_count : Nat
  average_score : ℚ
  deriving Repr, DecidableEq

/-- `get_interview_summary` (`app.py` lines 954-992).  `questions_data` is
the stored question list for the session (`none` models the empty dict
returned for a missing key, which — like an empty list — is falsy and
yields the 404).  For each question the `analysis_{id}` record is loaded;
missing records (empty dicts, falsy) are skipped. -/
def get_interview_summary (store : AnalysisStore) (questions_data : Option (List Question))
    (sid : String) : Except Unit InterviewSummary :=
  match questions_data with
  | none => .error ()
  | some questions =>
    if questions.isEmpty then .error ()
    else
      let analyses := questions.filterMap (fun q => lookupAnalysisRecord store (sid, q.id))
      .ok { total_questions := questions.length
            answered_questions := analyses.length
            technical_count := (questions.filter (fun q => q.qtype == "technical")).length
            behavioral_count := (questions.filter (fun q => q.qtype == "behavioral")).length
            general_count := (questions.filter (fun q => q.qtype == "general")).length
            average_score :=
              if analyses.isEmpty then 0
              else ((analyses.map (fun a => (a.analysis.score : ℚ))).sum) / analyses.length }

/-! ## Content-relevance heuristics (`app.py` lines 797-950) -/

/-- `detect_question_type` (`app.py` lines 888-903). -/
def detect_question_type (question_text : String) : String :=
  let question_lower := lowerStr question_text
  if ["introduce yourself", "about yourself", "tell me about your background", "welcome to",
      "could you please introduce"].any (fun p => strContains question_lower p) then
    "introduction"
  else if ["experience", "worked", "job", "role", "position"].any
      (fun w => strContains question_lower w) then
    "experience"
  else if ["technical", "technology", "programming", "code", "software"].any
      (fun w => strContains question_lower w) then
    "technical"
  else if ["challenge", "difficult", "problem", "conflict"].any
      (fun w => strContains question_lower w) then
    "behavioral"
  else if ["strength", "weakness", "skills"].any (fun w => strContains question_lower w) then
    "self_assessment"
  else
    "general"

/-- The short-word allowlist of `is_nonsensical_answer`
(`app.py` line 916). -/
def nonsense_short_allowlist : List String :=
  ["i", "am", "my", "is", "it", "to", "in", "on", "at", "me", "we", "he", "she",
   "the", "and", "but", "for", "you", "can", "was", "are", "yes", "no"]

/-- First nonsense test (`app.py` line 914): longer than 2 letters with no
vowel. -/
def nonsensePattern1 (w : String) : Bool :=
  w.length > 2 && !((lowerStr w).data.any (fun c => "aeiou".data.contains c))

/-- Second nonsense test (`app.py` line 916): at most 3 letters and not a
common short word. -/
def nonsensePattern2 (w : String) : Bool :=
  w.length ≤ 3 && !(nonsense_short_allowlist.contains (lowerStr w))

/-- `is_nonsensical_answer` (`app.py` lines 905-927): strip each token to
its alphabetic characters and flag the answer when more than half of the
tokens match one of the two nonsense tests (`count / len > 0.5` modelled
exactly as `2 * count > len`). -/
def is_nonsensical_answer (answer_text : String) : Bool :=
  let words := pySplit answer_text
  if words.length = 0 then true
  else
    let nonsense_count :=
      (words.filter (fun word =>
        let clean_word := String.mk (word.data.filter Char.isAlpha)
        clean_word ≠ "" && (nonsensePattern1 clean_word || nonsensePattern2 clean_word))).length
    2 * nonsense_count > words.length

/-- The `type_keywords` table of `check_content_match`
(`app.py` lines 933-940). -/
def content_type_keywords (question_type : String) : List String :=
  if question_type = "introduction" then
    ["i am", "my name", "background", "experience", "education", "skills", "career",
     "currently", "studying", "pursuing", "master", "degree", "student"]
  else if question_type = "experience" then
    ["worked", "job", "role", "company", "project", "team", "responsibility"]
  else if question_type = "technical" then
    ["technology", "programming", "code", "software", "system", "development"]
  else if question_type = "behavioral" then
    ["situation", "challenge", "problem", "solution", "result", "learned"]
  else if question_type = "self_assessment" then
    ["strength", "good at", "weakness", "improve", "skill"]
  else []

/-- `check_content_match` (`app.py` lines 929-950).  An unknown type gets
`[]` from the table (the dict `.get` default), which is treated like the
"general" entry. -/
def check_content_match (answer_text : String) (question_type : String) : Bool :=
  let answer_lower := lowerStr answer_text
  let expected_keywords := content_type_keywords question_type
  if expected_keywords.isEmpty then true
  else if question_type = "introduction" then (pySplit answer_text).length ≥ 3
  else expected_keywords.any (fun k => strContains answer_lower k)

/-- The `personal_indicators` list of the introduction branch
(`app.py` lines 817-823). -/
def personal_indicators : List String :=
  ["i am", "my name", "name is", "currently", "studying", "pursuing",
   "background", "experience", "education", "student", "degree",
   "master", "masters", "bachelor", "university", "college", "work",
   "working", "enthusiastic", "person", "computer", "science", "cs",
   "passionate", "interested", "learning"]

/-- The `negative_phrases` list (`app.py` lines 847-851). -/
def negative_phrases : List String :=
  ["no experience", "no prior experience", "never worked", "never done",
   "not familiar", "don\x27t have experience", "haven\x27t worked", "no knowledge",
   "not experienced", "never used", "don\x27t know", "not sure", "no idea"]

/-- The `common_words` stop list (`app.py` line 864). -/
def relevance_common_words : List String :=
  ["the", "a", "an", "and", "or", "but", "in", "on", "at", "to", "for", "of", "with",
   "by", "how", "what", "when", "where", "why", "who", "tell", "me", "about", "describe",
   "explain", "can", "you", "your", "do", "did", "have", "has", "is", "are", "was", "were"]

/-- Result dict of `analyze_content_relevance`.  `relevance_percentage` is
kept exact (the source additionally rounds it to one decimal for display). -/
structure RelevanceResult where
  is_relevant : Bool
  relevance_percentage : ℚ
  question_type : String
  content_match : Bool
  deriving Repr, DecidableEq

/-- The key question words (`app.py` line 865): tokens of the lowercased
question, kept when the token (before stripping!) is longer than 2
characters and its punctuation-stripped form is not a stop word; the
stripped form is what is kept. -/
def relevanceQuestionWords (question_lower : String) : List String :=
  ((pySplit question_lower).filter
    (fun word => !(relevance_common_words.contains (stripPunct word)) && word.length > 2)).map
    stripPunct

/-- `analyze_content_relevance` (`app.py` lines 797-886).  The
`question_type == 'introduction'` leniency at line 877 is translated
literally even though the early returns of the introduction branch make it
dead code. -/
def analyze_content_relevance (answer_text question_text : String) : RelevanceResult :=
  let answer_lower := lowerStr answer_text
  let question_lower := lowerStr question_text
  if is_nonsensical_answer answer_text then
    { is_relevant := false, relevance_percentage := 0
      question_type := "nonsensical", content_match := false }
  else
    let question_type := detect_question_type question_text
    if question_type = "introduction" then
      let has_personal_info := personal_indicators.any (fun p => strContains answer_lower p)
      let word_count := (pySplit answer_text).length
      if has_personal_info && word_count ≥ 3 then
        { is_relevant := true, relevance_percentage := 100
          question_type := question_type, content_match := true }
      else
        { is_relevant := false, relevance_percentage := 0
          question_type := question_type, content_match := false }
    else if (question_type ≠ "introduction" &&
        negative_phrases.any (fun p => strContains answer_lower p)) &&
        ["experience", "worked", "project", "solved", "implemented", "used"].any
          (fun w => strContains question_lower w) then
      { is_relevant := false, relevance_percentage := 0
        question_type := question_type, content_match := false }
    else
      let question_words := relevanceQuestionWords question_lower
      let relevant_keywords :=
        (question_words.filter (fun w => strContains answer_lower w)).length
      let relevance_percentage : ℚ :=
        if question_words.isEmpty then 0
        else (relevant_keywords : ℚ) / (question_words.length : ℚ) * 100
      let content_match := check_content_match answer_text question_type
      let word_count := (pySplit answer_text).length
      let is_relevant :=
        if question_type = "introduction" then word_count ≥ 5
        else (relevance_percentage ≥ 15 && content_match) || word_count > 30
      { is_relevant := is_relevant, relevance_percentage := relevance_percentage
        question_type := question_type, content_match := content_match }

/-! ## `/complete-interview` (`app.py` lines 1182-1276) -/

/-- Per-answer heuristic score (`app.py` lines 1195-1202): base 5, bumps
for word count and keyword mentions, clipped by `min(score, 10)`. -/
def ci_answer_score (answer : String) : Nat :=
  let word_count := (pySplit answer).length
  let s0 : Nat := 5
  let s1 := if word_count > 50 then s0 + 1 else s0
  let s2 := if word_count > 100 then s1 + 1 else s1
  let s3 :=
    if ["experience", "project", "team"].any (fun k => strContains (lowerStr answer) k)
    then s2 + 1 else s2
  let s4 :=
    if ["result", "outcome", "success"].any (fun k => strContains (lowerStr answer) k)
    then s3 + 1 else s3
  min s4 10

/-- The final report of `/complete-interview` (`app.py` lines 1248-1260).
`overall_score` and `avg_words_per_answer` are kept exact; the source
rounds both to one decimal for display.  The `summary` prose string is an
arithmetic-free rendering of these fields and is not modelled. -/
structure InterviewReport where
  overall_score : ℚ
  total_questions : Nat
  duration_minutes : Nat
  total_words : Nat
  avg_words_per_answer : ℚ
  strengths : List String
  improvements : List String
  detailed_scores : List Nat
  deriving Repr, DecidableEq

/-- `complete_interview` (`app.py` lines 1182-1276) as a function of the
submitted answer texts (the `answer` field of each dict in
`request.answers`) and the reported duration in seconds.  The operation is
total: every division is guarded exactly as in the source. -/
def complete_interview (answers : List String) (duration : Nat) : InterviewReport :=
  let total_answers := answers.length
  let total_words := (answers.map (fun a => (pySplit a).length)).sum
  let avg_words_per_answer : ℚ :=
    if total_answers > 0 then (total_words : ℚ) / (total_answers : ℚ) else 0
  let scores := answers.map ci_answer_score
  let overall_score : ℚ :=
    if scores.isEmpty then 5
    else ((scores.map (fun n => (n : ℚ))).sum) / (scores.length : ℚ)
  let strengths0 : List String :=
    (if avg_words_per_answer > 75 then ["Provides comprehensive and detailed responses"]
     else if avg_words_per_answer > 40 then ["Clear and concise communication style"]
     else []) ++
    (if overall_score ≥ 7 then ["Strong technical knowledge and experience"] else []) ++
    (if answers.any (fun a => strContains (lowerStr a) "team")
     then ["Good collaboration and teamwork skills"] else [])
  let improvements0 : List String :=
    (if avg_words_per_answer < 40
     then ["Consider providing more detailed examples and explanations"] else []) ++
    (if overall_score < 6
     then ["Focus on demonstrating specific technical skills and achievements"] else []) ++
    (if !(answers.any (fun a =>
        strContains (lowerStr a) "result" || strContains (lowerStr a) "outcome"))
     then ["Include more results-oriented examples in your responses"] else [])
  let strengths :=
    if strengths0.isEmpty then ["Completed the full interview with consistent engagement"]
    else strengths0
  let improvements :=
    if improvements0.isEmpty then ["Continue practicing to refine your interview responses"]
    else improvements0
  { overall_score := overall_score
    total_questions := total_answers
    duration_minutes := duration / 60
    total_words := total_words
    avg_words_per_answer := avg_words_per_answer
    strengths := strengths
    improvements := improvements
    detailed_scores := scores }

/-! ## Helper lemmas -/

/-- `renumberFrom` preserves length. -/
lemma renumberFrom_length (n : Nat) (l : List Question) :
    (renumberFrom n l).length = l.length := by
  induction l generalizing n with
  | nil => rfl
  | cons q qs ih => simp [renumberFrom, ih]

/-- The ids produced by `renumberFrom` are consecutive. -/
lemma renumberFrom_ids (n : Nat) (l : List Question) :
    (renumberFrom n l).map (fun q => q.id) = List.range' n l.length := by
  induction l generalizing n with
  | nil => rfl
  | cons q qs ih => simp [renumberFrom, List.range'_succ, ih]

/-- A `take` of a nonempty list with positive count is nonempty. -/
lemma take_three_ne_nil {l : List String} (h : l ≠ []) : l.take 3 ≠ [] := by
  cases l with
  | nil => exact absurd rfl h
  | cons a t => simp [List.take]

/-! ## Claim theorems -/

/-- C9 counterexample: the claim asserts that the nonsensical-answer
heuristic classifies "asdkj qpwo" as nonsensical; in fact both tokens
contain a vowel and are longer than 3 letters, so neither nonsense test
fires, `is_nonsensical_answer` returns `false`, and the relevance analysis
does not take its nonsensical branch for this answer (shown here against a
non-introduction question from the speech set). -/
theorem gibberish_not_flagged_nonsensical :
    is_nonsensical_answer "asdkj qpwo" = false ∧
    (analyze_content_relevance "asdkj qpwo"
      "Describe a challenging project you worked on recently.").question_type ≠ "nonsensical" := by
  decide

/-- C9 amended: `is_nonsensical_answer` does not flag "asdkj qpwo", but the
content-relevance analysis still returns `is_relevant = false` for it on a
non-introduction ("experience"-type) question — via zero keyword overlap
and a failed content match with word count ≤ 30, not via the nonsensical
classification. -/
theorem gibberish_still_irrelevant :
    analyze_content_relevance "asdkj qpwo"
        "Describe a challenging project you worked on recently." =
      { is_relevant := false, relevance_percentage := 0
        question_type := "experience", content_match := false } ∧
    is_nonsensical_answer "asdkj qpwo" = false := by
  refine ⟨?_, by decide⟩
  have h1 : is_nonsensical_answer "asdkj qpwo" = false := by decide
  have h2 : detect_question_type "Describe a challenging project you worked on recently." =
      "experience" := by decide
  have h3 : relevanceQuestionWords
      (lowerStr "Describe a challenging project you worked on recently.") =
      ["challenging", "project", "worked", "recently"] := by decide
  have h4 : check_content_match "asdkj qpwo" "experience" = false := by decide
  have h5 : negative_phrases.any (fun p => strContains (lowerStr "asdkj qpwo") p) = false := by
    decide
  have h6 : pySplit "asdkj qpwo" = ["asdkj", "qpwo"] := by decide
  have h7 : (["challenging", "project", "worked", "recently"].filter
      (fun w => strContains (lowerStr "asdkj qpwo") w)) = [] := by decide
  simp only [analyze_content_relevance, h1, h2, h3, h4, h5, h6, h7]
  norm_num

/-- Concrete session used by the C3 witness: the speech-interview session
as `/speech-interview/start` creates it. -/
def c3_session : SpeechSession :=
  { questions := speech_fallback_questions
    current_question_index := 0
    difficulty_level := "baseline"
    question_history := []
    session_stats := { total_questions := 4, completed := 0, average_score := 0 } }

/-- Concrete store holding `c3_session` under session id "s". -/
def c3_store : SessionStore := [("s", c3_session)]

/-- Concrete out-of-order request: the session is at question 1 but the
answer is tagged with question id 2. -/
def c3_request : SpeechAnswerRequest :=
  { session_id := "s", question_id := 2, answer := "my answer", response_time := 0 }

/-- C3: submitting an answer whose `question_id` differs from the id of
the question at the session's current index is rejected with the
"Question ID mismatch" error, and the persisted session store is returned
unchanged (the mismatch check precedes every history/statistics mutation
and every file write). -/
theorem question_mismatch_rejected
    (store : SessionStore) (req : SpeechAnswerRequest) (sd : SpeechSession)
    (current_question : Question)
    (hs : lookupSession store req.session_id = some sd)
    (hq : sd.questions[sd.current_question_index]? = some current_question)
    (hid : req.question_id ≠ current_question.id) :
    analyze_speech_answer store req = (.error "Question ID mismatch", store) := by
  simp [analyze_speech_answer, hs, hq, hid]

/-- C3 witness: the concrete out-of-order submission is rejected and the
store is returned unchanged. -/
theorem question_mismatch_rejected_witness :
    lookupSession c3_store c3_request.session_id = some c3_session ∧
    analyze_speech_answer c3_store c3_request = (.error "Question ID mismatch", c3_store) :=
  ⟨by decide,
   question_mismatch_rejected c3_store c3_request c3_session
     { id := 1, question := "Tell me about yourself and your technical background."
       qtype := "technical", difficulty := some "baseline" }
     (by decide) (by decide) (by decide)⟩

/-- C4 counterexample: the claim asserts that *every* interview start
yields a first question of category "introduction" with
`is_scored = false`; but `/speech-interview/start` (for any non-empty
resume) installs the fixed four-question list whose first question has
type "technical" and carries no `is_scored` flag at all. -/
theorem speech_start_first_question_not_introduction :
    start_speech_interview "5 years Python, AWS, led a team of 4" "baseline" =
      .ok { questions := speech_fallback_questions
            current_question_index := 0
            difficulty_level := "baseline"
            question_history := []
            session_stats := { total_questions := 4, completed := 0, average_score := 0 } } ∧
    speech_fallback_questions.head?.map (fun q => (q.qtype, q.is_scored)) =
      some ("technical", none) ∧
    ("technical" : String) ≠ "introduction" :=
  ⟨rfl, by decide, by decide⟩

/-- C4 amended: on the `/generate-questions` path, whenever the provider
does not already return an introduction-first list (it raised, returned an
empty list, or its first question's type is not "introduction"), the
resulting question list starts with the canned introduction question —
category "introduction", `is_scored = false` — and its ids form the
contiguous 1-based sequence `1..N`.  (When the provider's first question
already has type "introduction" the list is passed through as-is, without
an `is_scored` flag; and the speech-interview start path is the separate
counterexample above.) -/
theorem generated_first_question_introduction (provider : Option (List Question))
    (h : ∀ qs, provider = some qs →
      qs.head?.map (fun q => q.qtype) ≠ some "introduction") :
    (generate_questions_core provider).head?.map (fun q => (q.qtype, q.is_scored)) =
      some ("introduction", some false) ∧
    (generate_questions_core provider).map (fun q => q.id) =
      List.range' 1 (generate_questions_core provider).length := by
  cases provider with
  | none =>
      constructor
      · decide
      · decide
  | some qs =>
      cases qs with
      | nil =>
          constructor
          · decide
          · decide
      | cons q rest =>
          have hq : q.qtype ≠ "introduction" := by
            intro hcontra
            exact h (q :: rest) rfl (by simp [hcontra])
          have hcore : generate_questions_core (some (q :: rest)) =
              intro_question :: renumberFrom 2 (q :: rest) := by
            simp [generate_questions_core, hq]
          rw [hcore]
          refine ⟨rfl, ?_⟩
          simp [renumberFrom_ids, renumberFrom_length, List.range'_succ, intro_question]

/-- C4 amended witness: with the provider raising (so the deterministic
fallback list is used), the first question is the introduction with
`is_scored = false` and the ids are `1..6`. -/
theorem generated_first_question_introduction_witness :
    (∀ qs, (none : Option (List Question)) = some qs →
      qs.head?.map (fun q => q.qtype) ≠ some "introduction") ∧
    (generate_questions_core none).head?.map (fun q => (q.qtype, q.is_scored)) =
      some ("introduction", some false) ∧
    (generate_questions_core none).map (fun q => q.id) =
      List.range' 1 (generate_questions_core none).length :=
  ⟨(fun qs hqs => by cases hqs),
   generated_first_question_introduction none (fun qs hqs => by cases hqs)⟩

/-- An `if isEmpty` fallback to a canned singleton is never empty. -/
lemma ite_empty_ne_nil (l : List String) (d : String) :
    (if l.isEmpty then [d] else l) ≠ [] := by
  cases l <;> simp

/-- C5: `/complete-interview` scores every answer as base 5, +1 for more
than 50 words, +1 for more than 100 words, +1 for mentioning
experience/project/team, +1 for mentioning result/outcome/success, clipped
to at most 10; the overall score is the arithmetic mean of those
per-answer scores, and an empty answers list yields the baseline 5 (the
operation is total — every division in the source is guarded). -/
theorem complete_interview_scoring :
    ∀ (answers : List String) (duration : Nat),
      (complete_interview answers duration).detailed_scores = answers.map ci_answer_score ∧
      (complete_interview answers duration).overall_score =
        (if answers.isEmpty then 5
         else ((answers.map ci_answer_score).map (fun n => (n : ℚ))).sum
                / (answers.length : ℚ)) ∧
      (∀ a : String,
        ci_answer_score a =
          min 10 (5 + (if (pySplit a).length > 50 then 1 else 0)
            + (if (pySplit a).length > 100 then 1 else 0)
            + (if ["experience", "project", "team"].any
                  (fun k => strContains (lowerStr a) k) then 1 else 0)
            + (if ["result", "outcome", "success"].any
                  (fun k => strContains (lowerStr a) k) then 1 else 0)) ∧
        ci_answer_score a ≤ 10) := by
  intro answers duration
  refine ⟨rfl, ?_, ?_⟩
  · cases answers with
    | nil => rfl
    | cons a rest =>
        simp only [complete_interview, List.map_cons, List.isEmpty_cons,
          Bool.false_eq_true, if_false, List.length_map, List.length_cons]
  · intro a
    constructor
    · simp only [ci_answer_score]
      split_ifs <;> omega
    · simp only [ci_answer_score]
      exact Nat.min_le_right _ _

/-- C6: the local heuristic fallback starts from baseline 7, penalizes
short answers (-2 below 10 words) and modestly rewards long ones (+1 above
40 words), subtracts 1 when more than 2 of the hedging phrases occur,
subtracts 1 when filler-word tokens exceed 10% of all words, clamps into
`[3,10]`, and always returns at least one strength and one improvement. -/
theorem fallback_analysis_heuristic :
    ∀ answer : String,
      (simple_fallback_analysis answer).score =
        max 3 (min 10 ((7 : Int)
          + (if (pySplit answer).length < 10 then -2
             else if (pySplit answer).length > 40 then 1 else 0)
          + (if sfa_uncertainty_count (lowerStr answer) > 2 then -1 else 0)
          + (if 10 * sfa_filler_count (pySplit answer) > (pySplit answer).length
             then -1 else 0))) ∧
      3 ≤ (simple_fallback_analysis answer).score ∧
      (simple_fallback_analysis answer).score ≤ 10 ∧
      (simple_fallback_analysis answer).strengths ≠ [] ∧
      (simple_fallback_analysis answer).improvements ≠ [] := by
  intro answer
  simp only [simple_fallback_analysis]
  refine ⟨?_, ?_, ?_, ?_, ?_⟩
  · split_ifs <;> norm_num
  · exact le_max_left _ _
  · exact max_le (by norm_num) (min_le_left _ _)
  · exact take_three_ne_nil (ite_empty_ne_nil _ _)
  · exact take_three_ne_nil (ite_empty_ne_nil _ _)

/-- On the success path (session found, question id matches, final
question), the endpoint returns the canned response and persists the
updated session. -/
lemma analyze_speech_answer_success
    (store : SessionStore) (req : SpeechAnswerRequest) (sd : SpeechSession)
    (current_question : Question)
    (hs : lookupSession store req.session_id = some sd)
    (hq : sd.questions[sd.current_question_index]? = some current_question)
    (hid : req.question_id = current_question.id)
    (hlast : ¬ sd.current_question_index + 1 < sd.questions.length) :
    analyze_speech_answer store req =
      (.ok (speech_submit_response sd req current_question),
       saveSession store req.session_id (speech_submit_update sd req current_question)) := by
  simp [analyze_speech_answer, hs, hq, hid, hlast]

/-- C7: a recorded turn always leaves the persisted running average equal
to the arithmetic mean of all recorded turns' overall scores (the source
recomputes it from the full history), the history grows by exactly one
turn, and — whenever the previous average was itself the mean of the
previous history — the recomputed value coincides with the incremental
update `(avg·k + newScore)/(k+1)`. -/
theorem running_average_is_mean
    (store : SessionStore) (req : SpeechAnswerRequest) (sd : SpeechSession)
    (current_question : Question)
    (hs : lookupSession store req.session_id = some sd)
    (hq : sd.questions[sd.current_question_index]? = some current_question)
    (hid : req.question_id = current_question.id)
    (hlast : ¬ sd.current_question_index + 1 < sd.questions.length) :
    analyze_speech_answer store req =
      (.ok (speech_submit_response sd req current_question),
       saveSession store req.session_id (speech_submit_update sd req current_question)) ∧
    (speech_submit_update sd req current_question).session_stats.average_score =
      listMean ((speech_submit_update sd req current_question).question_history.map
        (fun r => r.analysis.overall_score)) ∧
    (speech_submit_update sd req current_question).question_history.length =
      sd.question_history.length + 1 ∧
    (sd.question_history ≠ [] →
      sd.session_stats.average_score =
        listMean (sd.question_history.map (fun r => r.analysis.overall_score)) →
      (speech_submit_update sd req current_question).session_stats.average_score =
        (sd.session_stats.average_score * sd.question_history.length
          + placeholder_analysis.overall_score) / (sd.question_history.length + 1)) := by
  refine ⟨analyze_speech_answer_success store req sd current_question hs hq hid hlast,
    rfl, ?_, ?_⟩
  · simp [speech_submit_update, speech_new_history]
  · intro hne havg
    have hk : (sd.question_history.length : ℚ) ≠ 0 :=
      Nat.cast_ne_zero.mpr (fun h => hne (List.length_eq_zero.mp h))
    simp only [speech_submit_update, speech_new_average, speech_new_scores,
      speech_new_history, speech_turn_record, List.map_append, List.map_cons, List.map_nil,
      List.sum_append, List.sum_cons, List.sum_nil, List.length_append, List.length_cons,
      List.length_nil, List.length_map, listMean] at *
    rw [havg]
    push_cast
    field_simp

/-- Concrete session for the C7/C8 witnesses: sitting at the final (4th)
question of the speech set. -/
def c7_session : SpeechSession :=
  { questions := speech_fallback_questions
    current_question_index := 3
    difficulty_level := "baseline"
    question_history := []
    session_stats := { total_questions := 4, completed := 0, average_score := 0 } }

/-- Concrete store for the C7/C8 witnesses. -/
def c7_store : SessionStore := [("s7", c7_session)]

/-- Concrete matching request answering the final question. -/
def c7_request : SpeechAnswerRequest :=
  { session_id := "s7", question_id := 4, answer := "it fits my skills", response_time := 0 }

/-- The question at the concrete session's current index. -/
def c7_current_question : Question :=
  { id := 4, question := "What interests you most about this role?"
    qtype := "custom", difficulty := some "baseline" }

/-- C7 witness: the theorem instantiated at the concrete final-question
submission. -/
theorem running_average_is_mean_witness :
    analyze_speech_answer c7_store c7_request =
      (.ok (speech_submit_response c7_session c7_request c7_current_question),
       saveSession c7_store c7_request.session_id
         (speech_submit_update c7_session c7_request c7_current_question)) ∧
    (speech_submit_update c7_session c7_request c7_current_question).session_stats.average_score =
      listMean
        ((speech_submit_update c7_session c7_request c7_current_question).question_history.map
          (fun r => r.analysis.overall_score)) ∧
    (speech_submit_update c7_session c7_request c7_current_question).question_history.length =
      c7_session.question_history.length + 1 ∧
    (c7_session.question_history ≠ [] →
      c7_session.session_stats.average_score =
        listMean (c7_session.question_history.map (fun r => r.analysis.overall_score)) →
      (speech_submit_update c7_session c7_request
        c7_current_question).session_stats.average_score =
        (c7_session.session_stats.average_score * c7_session.question_history.length
          + placeholder_analysis.overall_score) / (c7_session.question_history.length + 1)) :=
  running_average_is_mean c7_store c7_request c7_session c7_current_question
    (by decide) (by decide) (by decide) (by decide)

/-- C8: on a recorded turn, the returned `performance_trend` is "stable"
when this was the first turn, and otherwise is "improving" exactly when
the latest turn's overall score strictly exceeds the previous turn's
overall score, "stable" in every other case (ties and decreases
included). -/
theorem performance_trend_rule
    (store : SessionStore) (req : SpeechAnswerRequest) (sd : SpeechSession)
    (current_question : Question)
    (hs : lookupSession store req.session_id = some sd)
    (hq : sd.questions[sd.current_question_index]? = some current_question)
    (hid : req.question_id = current_question.id)
    (hlast : ¬ sd.current_question_index + 1 < sd.questions.length) :
    analyze_speech_answer store req =
      (.ok (speech_submit_response sd req current_question),
       saveSession store req.session_id (speech_submit_update sd req current_question)) ∧
    (sd.question_history = [] →
      (speech_submit_response sd req current_question).performance_trend = "stable") ∧
    (∀ pre last, sd.question_history = pre ++ [last] →
      ((speech_submit_response sd req current_question).performance_trend = "improving" ↔
        last.analysis.overall_score < placeholder_analysis.overall_score) ∧
      ((speech_submit_response sd req current_question).performance_trend = "stable" ↔
        ¬ last.analysis.overall_score < placeholder_analysis.overall_score)) := by
  refine ⟨analyze_speech_answer_success store req sd current_question hs hq hid hlast, ?_, ?_⟩
  · intro h
    simp [speech_submit_response, speech_new_scores, speech_new_history,
      speech_turn_record, trendImproving, h]
  · intro pre last h
    have hrev : (speech_new_scores sd req current_question).reverse
        = placeholder_analysis.overall_score :: last.analysis.overall_score ::
          (pre.map (fun r => r.analysis.overall_score)).reverse := by
      simp [speech_new_scores, speech_new_history, speech_turn_record, h]
    have htr : trendImproving (speech_new_scores sd req current_question)
        = decide (last.analysis.overall_score < placeholder_analysis.overall_score) := by
      simp only [trendImproving]
      rw [hrev]
    by_cases hc : last.analysis.overall_score < placeholder_analysis.overall_score
    · simp [speech_submit_response, htr, hc]
    · simp [speech_submit_response, htr, hc]

/-- C8 witness: the theorem instantiated at the concrete final-question
submission (a first turn, so the trend is "stable"). -/
theorem performance_trend_rule_witness :
    analyze_speech_answer c7_store c7_request =
      (.ok (speech_submit_response c7_session c7_request c7_current_question),
       saveSession c7_store c7_request.session_id
         (speech_submit_update c7_session c7_request c7_current_question)) ∧
    (c7_session.question_history = [] →
      (speech_submit_response c7_session c7_request c7_current_question).performance_trend =
        "stable") ∧
    (∀ pre last, c7_session.question_history = pre ++ [last] →
      ((speech_submit_response c7_session c7_request
          c7_current_question).performance_trend = "improving" ↔
        last.analysis.overall_score < placeholder_analysis.overall_score) ∧
      ((speech_submit_response c7_session c7_request
          c7_current_question).performance_trend = "stable" ↔
        ¬ last.analysis.overall_score < placeholder_analysis.overall_score)) :=
  performance_trend_rule c7_store c7_request c7_session c7_current_question
    (by decide) (by decide) (by decide) (by decide)

/-- `find?` skips a prefix in which nothing matches. -/
lemma find?_append_of_none {α : Type} (p : α → Bool) (l₁ l₂ : List α)
    (h : l₁.find? p = none) : (l₁ ++ l₂).find? p = l₂.find? p := by
  induction l₁ with
  | nil => rfl
  | cons a t ih =>
      cases hp : p a with
      | true => simp [List.find?, hp] at h
      | false =>
          simp only [List.find?, hp] at h
          simpa [List.find?, hp] using ih h

/-- If nothing in a list matches, nothing in its `drop` matches. -/
lemma find?_drop_of_none {α : Type} (p : α → Bool) (l : List α) (n : Nat)
    (h : l.find? p = none) : (l.drop n).find? p = none := by
  rw [List.find?_eq_none] at *
  exact fun a ha => h a (List.drop_subset n l ha)

/-- A fresh key inserted by the bounded insert is found afterwards, with
the inserted value. -/
lemma lookupCache_boundedInsert_self (cache : AnalysisCache) (k : CacheKey) (v : Analysis)
    (h : lookupCache cache k = none) :
    lookupCache (cacheBoundedInsert cache k v) k = some v := by
  have hfind : cache.find? (fun p => p.1 == k) = none := by
    unfold lookupCache at h
    cases hf : cache.find? (fun p => p.1 == k) with
    | none => rfl
    | some p => rw [hf] at h; simp at h
  unfold lookupCache cacheBoundedInsert
  split
  · rw [find?_append_of_none _ _ _ (find?_drop_of_none _ _ _ hfind)]
    simp [List.find?]
  · rw [find?_append_of_none _ _ _ hfind]
    simp [List.find?]

/-- The bounded insert never grows the cache beyond `MAX_CACHE_SIZE`. -/
lemma cacheBoundedInsert_length (cache : AnalysisCache) (k : CacheKey) (v : Analysis)
    (h : cache.length ≤ MAX_CACHE_SIZE) :
    (cacheBoundedInsert cache k v).length ≤ MAX_CACHE_SIZE := by
  unfold cacheBoundedInsert MAX_CACHE_SIZE at *
  split
  all_goals simp only [List.length_append, List.length_drop, List.length_cons,
    List.length_nil]
  all_goals omega

/-- A cache hit returns the cached analysis and leaves every piece of
state untouched, without attempting the cloud path. -/
lemma analyze_interview_answer_hit (bedrock : Option BedrockParsed)
    (loadQ : Except Unit Unit) (cache : AnalysisCache) (store : AnalysisStore)
    (req : AnswerRequest) (cached : Analysis)
    (h : lookupCache cache (analysisCacheKey req) = some cached) :
    analyze_interview_answer bedrock loadQ cache store req =
      { analysis := cached, cache := cache, store := store, cloudInvoked := false } := by
  simp only [analyze_interview_answer]
  rw [h]

/-- One `/analyze-answer` call keeps the cache within the cap. -/
lemma analyze_interview_answer_cache_le (bedrock : Option BedrockParsed)
    (loadQ : Except Unit Unit) (cache : AnalysisCache) (store : AnalysisStore)
    (req : AnswerRequest) (h : cache.length ≤ MAX_CACHE_SIZE) :
    (analyze_interview_answer bedrock loadQ cache store req).cache.length ≤ MAX_CACHE_SIZE := by
  simp only [analyze_interview_answer]
  cases hl : lookupCache cache (analysisCacheKey req) with
  | some cached => exact h
  | none =>
      cases loadQ with
      | error e => exact h
      | ok u => exact cacheBoundedInsert_length _ _ _ h

/-- C1: (i) starting from any cache within the 100-entry cap, any sequence
of `/analyze-answer` requests keeps the cache within the cap (one
oldest-inserted entry is dropped before a fresh insert at the cap);
(ii) a request whose fingerprint is already cached returns the cached
analysis and changes neither cache nor store, without invoking the cloud
path; (iii) issuing the same request twice in a row (first with the
question-context load succeeding) makes the second call return the first
call's analysis from the cache, state unchanged and cloud not invoked. -/
theorem analysis_cache_bounded :
    (∀ steps cache store, cache.length ≤ MAX_CACHE_SIZE →
      (runAnalyze steps cache store).1.length ≤ MAX_CACHE_SIZE) ∧
    (∀ bedrock loadQ cache store req cached,
      lookupCache cache (analysisCacheKey req) = some cached →
      analyze_interview_answer bedrock loadQ cache store req =
        { analysis := cached, cache := cache, store := store, cloudInvoked := false }) ∧
    (∀ bedrock bedrock2 loadQ2 cache store req,
      analyze_interview_answer bedrock2 loadQ2
          (analyze_interview_answer bedrock (.ok ()) cache store req).cache
          (analyze_interview_answer bedrock (.ok ()) cache store req).store req =
        { analysis := (analyze_interview_answer bedrock (.ok ()) cache store req).analysis
          cache := (analyze_interview_answer bedrock (.ok ()) cache store req).cache
          store := (analyze_interview_answer bedrock (.ok ()) cache store req).store
          cloudInvoked := false }) := by
  refine ⟨?_, ?_, ?_⟩
  · intro steps
    induction steps with
    | nil => intro cache store h; exact h
    | cons s rest ih =>
        intro cache store h
        exact ih _ _ (analyze_interview_answer_cache_le s.1 s.2.1 cache store s.2.2 h)
  · intro bedrock loadQ cache store req cached h
    exact analyze_interview_answer_hit bedrock loadQ cache store req cached h
  · intro bedrock bedrock2 loadQ2 cache store req
    cases hl : lookupCache cache (analysisCacheKey req) with
    | some cached =>
        rw [analyze_interview_answer_hit bedrock (.ok ()) cache store req cached hl]
        exact analyze_interview_answer_hit bedrock2 loadQ2 cache store req cached hl
    | none =>
        have h1 : analyze_interview_answer bedrock (.ok ()) cache store req =
            { analysis := (analyze_fresh bedrock req.answer).1
              cache := cacheBoundedInsert cache (analysisCacheKey req)
                (analyze_fresh bedrock req.answer).1
              store := saveAnalysisRecord store (req.session_id, req.question_id)
                { question_id := req.question_id, answer := req.answer
                  analysis := (analyze_fresh bedrock req.answer).1 }
              cloudInvoked := (analyze_fresh bedrock req.answer).2 } := by
          simp only [analyze_interview_answer]
          rw [hl]
        rw [h1]
        exact analyze_interview_answer_hit bedrock2 loadQ2 _ _ req _
          (lookupCache_boundedInsert_self cache (analysisCacheKey req) _ hl)

/-- C1 witness: starting from the empty cache, the cap is kept, and a
request whose fingerprint sits in a singleton cache returns the cached
analysis with all state unchanged. -/
theorem analysis_cache_bounded_witness :
    (([] : AnalysisCache).length ≤ MAX_CACHE_SIZE ∧
      (runAnalyze [] [] []).1.length ≤ MAX_CACHE_SIZE) ∧
    (lookupCache [((1, "hello"), short_answer_analysis)]
        (analysisCacheKey { session_id := "s", question_id := 1, answer := " Hello " }) =
      some short_answer_analysis ∧
    analyze_interview_answer none (.ok ()) [((1, "hello"), short_answer_analysis)] []
        { session_id := "s", question_id := 1, answer := " Hello " } =
      { analysis := short_answer_analysis
        cache := [((1, "hello"), short_answer_analysis)]
        store := []
        cloudInvoked := false }) :=
  ⟨⟨by decide, analysis_cache_bounded.1 [] [] [] (by decide)⟩,
   by decide,
   analysis_cache_bounded.2.1 none (.ok ()) [((1, "hello"), short_answer_analysis)] []
     { session_id := "s", question_id := 1, answer := " Hello " } short_answer_analysis
     (by decide)⟩

/-- Every analysis stored in the cache has its score within `[0,10]`. -/
def cacheScoresBounded (cache : AnalysisCache) : Prop :=
  ∀ p ∈ cache, 0 ≤ p.2.score ∧ p.2.score ≤ 10

/-- The local fallback score is always within `[3,10]`. -/
lemma simple_fallback_score_bounds (a : String) :
    3 ≤ (simple_fallback_analysis a).score ∧ (simple_fallback_analysis a).score ≤ 10 := by
  simp only [simple_fallback_analysis]
  exact ⟨le_max_left _ _, max_le (by norm_num) (min_le_left _ _)⟩

/-- The cache-miss scoring block always produces a score within `[0,10]`. -/
lemma analyze_fresh_score_bounds (bedrock : Option BedrockParsed) (answer : String) :
    0 ≤ (analyze_fresh bedrock answer).1.score ∧ (analyze_fresh bedrock answer).1.score ≤ 10 := by
  unfold analyze_fresh
  split
  · exact ⟨by norm_num [short_answer_analysis], by norm_num [short_answer_analysis]⟩
  · cases bedrock with
    | none =>
        have h := simple_fallback_score_bounds answer
        exact ⟨le_trans (by norm_num) h.1, h.2⟩
    | some p =>
        refine ⟨?_, ?_⟩
        · simp only [analyze_with_bedrock]
          exact le_min (by norm_num) (le_max_left _ _)
        · simp only [analyze_with_bedrock]
          exact min_le_left _ _

/-- C2: whatever path produced it — short-answer short-circuit (2), cache
hit (an earlier in-range result), cloud path (clamped into `[0,10]`),
local fallback (clamped into `[3,10]`), emergency fallback (6) — the
returned analysis score is within `[0,10]`, and the cache only ever holds
in-range scores. -/
theorem analysis_score_in_range :
    (∀ bedrock loadQ cache store req, cacheScoresBounded cache →
      (0 ≤ (analyze_interview_answer bedrock loadQ cache store req).analysis.score ∧
        (analyze_interview_answer bedrock loadQ cache store req).analysis.score ≤ 10) ∧
      cacheScoresBounded (analyze_interview_answer bedrock loadQ cache store req).cache) ∧
    short_answer_analysis.score = 2 ∧
    emergency_analysis.score = 6 ∧
    (∀ a, 3 ≤ (simple_fallback_analysis a).score ∧ (simple_fallback_analysis a).score ≤ 10) ∧
    (∀ p a, analyze_with_bedrock (some p) = .ok a → 0 ≤ a.score ∧ a.score ≤ 10) := by
  refine ⟨?_, rfl, rfl, simple_fallback_score_bounds, ?_⟩
  · intro bedrock loadQ cache store req hcache
    simp only [analyze_interview_answer]
    cases hl : lookupCache cache (analysisCacheKey req) with
    | some cached =>
        have hmem : ∃ p ∈ cache, p.2 = cached := by
          unfold lookupCache at hl
          cases hf : cache.find? (fun p => p.1 == analysisCacheKey req) with
          | none => rw [hf] at hl; simp at hl
          | some p =>
              rw [hf] at hl
              simp only [Option.map] at hl
              exact ⟨p, List.mem_of_find?_eq_some hf, by injection hl⟩
        obtain ⟨p, hp, hpc⟩ := hmem
        exact ⟨hpc ▸ hcache p hp, hcache⟩
    | none =>
        cases loadQ with
        | error e => exact ⟨by norm_num [emergency_analysis], hcache⟩
        | ok u =>
            refine ⟨analyze_fresh_score_bounds bedrock req.answer, ?_⟩
            intro p hp
            simp only [cacheBoundedInsert] at hp
            rcases List.mem_append.mp hp with hmem | hmem
            · have : p ∈ cache := by
                by_cases hc : cache.length ≥ MAX_CACHE_SIZE
                · rw [if_pos hc] at hmem
                  exact List.drop_subset _ _ hmem
                · rw [if_neg hc] at hmem
                  exact hmem
              exact hcache p this
            · have : p = (analysisCacheKey req, (analyze_fresh bedrock req.answer).1) := by
                simpa using hmem
              rw [this]
              exact analyze_fresh_score_bounds bedrock req.answer
  · intro p a h
    simp only [analyze_with_bedrock, Except.ok.injEq] at h
    rw [← h]
    exact ⟨le_min (by norm_num) (le_max_left _ _), min_le_left _ _⟩

/-- C2 witness: from an empty (trivially in-range) cache, a concrete
request yields an in-range score and an in-range cache. -/
theorem analysis_score_in_range_witness :
    cacheScoresBounded [] ∧
    (0 ≤ (analyze_interview_answer none (.ok ()) [] []
        { session_id := "s", question_id := 1, answer := "hello there" }).analysis.score ∧
      (analyze_interview_answer none (.ok ()) [] []
        { session_id := "s", question_id := 1, answer := "hello there" }).analysis.score ≤ 10) ∧
    cacheScoresBounded (analyze_interview_answer none (.ok ()) [] []
      { session_id := "s", question_id := 1, answer := "hello there" }).cache :=
  ⟨by simp [cacheScoresBounded],
   (analysis_score_in_range.1 none (.ok ()) [] []
     { session_id := "s", question_id := 1, answer := "hello there" }
     (by simp [cacheScoresBounded])).1,
   (analysis_score_in_range.1 none (.ok ()) [] []
     { session_id := "s", question_id := 1, answer := "hello there" }
     (by simp [cacheScoresBounded])).2⟩

/-- Counting the survivors of a `filterMap` equals counting the elements
on which the partial function fires. -/
lemma length_filterMap_eq_length_filter {α β : Type} (f : α → Option β) (l : List α) :
    (l.filterMap f).length = (l.filter (fun a => (f a).isSome)).length := by
  induction l with
  | nil => rfl
  | cons a t ih =>
      cases h : f a with
      | none => simp [List.filterMap_cons, List.filter_cons, h, ih]
      | some b => simp [List.filterMap_cons, List.filter_cons, h, ih]

/-- C10: a request whose fingerprint is already cached returns the cached
analysis and performs no write to the session store; consequently every
later summary is unaffected, and when no analysis record exists for that
(session, question) pair the summary's `answered_questions` counts exactly
the questions that do have records — the hit turn is not among them — and
its average is taken over those records only. -/
theorem cache_hit_performs_no_store_write
    (bedrock : Option BedrockParsed) (loadQ : Except Unit Unit)
    (cache : AnalysisCache) (store : AnalysisStore) (req : AnswerRequest) (cached : Analysis)
    (hhit : lookupCache cache (analysisCacheKey req) = some cached) :
    (analyze_interview_answer bedrock loadQ cache store req).analysis = cached ∧
    (analyze_interview_answer bedrock loadQ cache store req).store = store ∧
    (analyze_interview_answer bedrock loadQ cache store req).cloudInvoked = false ∧
    (∀ questions_data sid,
      get_interview_summary (analyze_interview_answer bedrock loadQ cache store req).store
          questions_data sid =
        get_interview_summary store questions_data sid) ∧
    (∀ questions : List Question, questions.isEmpty = false →
      lookupAnalysisRecord store (req.session_id, req.question_id) = none →
      ∃ summ,
        get_interview_summary (analyze_interview_answer bedrock loadQ cache store req).store
            (some questions) req.session_id = .ok summ ∧
        summ.answered_questions =
          (questions.filter (fun q =>
            (lookupAnalysisRecord store (req.session_id, q.id)).isSome)).length ∧
        (∀ q ∈ questions, q.id = req.question_id →
          lookupAnalysisRecord
            (analyze_interview_answer bedrock loadQ cache store req).store
            (req.session_id, q.id) = none) ∧
        summ.average_score =
          (if (questions.filterMap
                (fun q => lookupAnalysisRecord store (req.session_id, q.id))).isEmpty
           then 0
           else ((questions.filterMap
                  (fun q => lookupAnalysisRecord store (req.session_id, q.id))).map
                  (fun a => (a.analysis.score : ℚ))).sum
                / ((questions.filterMap
                    (fun q => lookupAnalysisRecord store (req.session_id, q.id))).length : ℚ))) := by
  have heq := analyze_interview_answer_hit bedrock loadQ cache store req cached hhit
  rw [heq]
  refine ⟨rfl, rfl, rfl, fun _ _ => rfl, ?_⟩
  intro questions hne hnorec
  refine ⟨{ total_questions := questions.length
            answered_questions := (questions.filterMap
              (fun q => lookupAnalysisRecord store (req.session_id, q.id))).length
            technical_count := (questions.filter (fun q => q.qtype == "technical")).length
            behavioral_count := (questions.filter (fun q => q.qtype == "behavioral")).length
            general_count := (questions.filter (fun q => q.qtype == "general")).length
            average_score :=
              if (questions.filterMap
                  (fun q => lookupAnalysisRecord store (req.session_id, q.id))).isEmpty
              then 0
              else ((questions.filterMap
                      (fun q => lookupAnalysisRecord store (req.session_id, q.id))).map
                      (fun a => (a.analysis.score : ℚ))).sum
                / ((questions.filterMap
                    (fun q => lookupAnalysisRecord store (req.session_id, q.id))).length : ℚ) },
    ?_, ?_, ?_, ?_⟩
  · simp only [get_interview_summary, hne, Bool.false_eq_true, if_false]
  · exact length_filterMap_eq_length_filter _ _
  · intro q hq hid
    rw [hid]
    exact hnorec
  · rfl

/-- C10 witness: with the fingerprint of "(1, hello)" already cached, the
concrete request is served from the cache, the store stays empty and the
cloud path is not attempted. -/
theorem cache_hit_performs_no_store_write_witness :
    (analyze_interview_answer none (.ok ())
        [((1, "hello"), short_answer_analysis)] []
        { session_id := "s", question_id := 1, answer := " Hello " }).analysis =
      short_answer_analysis ∧
    (analyze_interview_answer none (.ok ())
        [((1, "hello"), short_answer_analysis)] []
        { session_id := "s", question_id := 1, answer := " Hello " }).store = [] ∧
    (analyze_interview_answer none (.ok ())
        [((1, "hello"), short_answer_analysis)] []
        { session_id := "s", question_id := 1, answer := " Hello " }).cloudInvoked = false :=
  have h := cache_hit_performs_no_store_write none (.ok ())
    [((1, "hello"), short_answer_analysis)] []
    { session_id := "s", question_id := 1, answer := " Hello " } short_answer_analysis
    (by decide)
  ⟨h.1, h.2.1, h.2.2.1⟩
